import Mathlib

/-!
# Verification of `map_prereqs.py` (UNSWPrereqMapper)

A shallow embedding of the data model and operations of
`src/map_prereqs.py`.  Python's dynamic behaviour is made explicit:
fallible operations return `Except PyErr _`, where an `Except.error`
models an exception propagating out of the Python function; side
effects on the on-disk cache are modelled by explicit state passing of
a file-system map.  HTML/JSON library calls (`BeautifulSoup`,
`json.loads`) are external library code: an HTML page is therefore
modelled by the structured view those calls hand back to the script
(its embedded `__NEXT_DATA__` JSON value, or the table rows the script
reads), and `soup.prettify()` is an abstract `prettify : String → String`
parameter.
-/

set_option autoImplicit false

namespace MapPrereqs

/-- The Python exception classes that the script's control flow can
raise or catch. -/
inductive PyErr where
  | typeError
  | keyError
  | indexError
  | attributeError
  | fileNotFoundError
  | httpError
  deriving Repr, DecidableEq

/-- A JSON value, as produced by `json.loads`. -/
inductive Json where
  | null
  | bool (b : Bool)
  | num (n : Int)
  | str (s : String)
  | arr (elems : List Json)
  | obj (fields : List (String × Json))

/-- Python subscripting `j[k]` with a string key `k`:
a dict returns the value for the key or raises `KeyError`;
`None`, numbers, strings and lists raise `TypeError` when subscripted
with a string. -/
def getItemStr : Json → String → Except PyErr Json
  | Json.obj fields, k =>
    match fields.lookup k with
    | some v => Except.ok v
    | none => Except.error PyErr.keyError
  | Json.null, _ => Except.error PyErr.typeError
  | Json.bool _, _ => Except.error PyErr.typeError
  | Json.num _, _ => Except.error PyErr.typeError
  | Json.str _, _ => Except.error PyErr.typeError
  | Json.arr _, _ => Except.error PyErr.typeError

/-- Python subscripting `j[i]` with a natural-number index `i`:
a list returns the element or raises `IndexError`; a string returns the
one-character substring or raises `IndexError`; a dict raises `KeyError`
(JSON objects only have string keys); `None` and numbers raise
`TypeError`. -/
def getItemNat : Json → Nat → Except PyErr Json
  | Json.arr elems, i =>
    match elems.get? i with
    | some v => Except.ok v
    | none => Except.error PyErr.indexError
  | Json.str s, i =>
    match s.toList.get? i with
    | some c => Except.ok (Json.str (String.mk [c]))
    | none => Except.error PyErr.indexError
  | Json.obj _, _ => Except.error PyErr.keyError
  | Json.null, _ => Except.error PyErr.typeError
  | Json.bool _, _ => Except.error PyErr.typeError
  | Json.num _, _ => Except.error PyErr.typeError

/-- An HTML page as seen through `_content_to_json`: if the page has a
`<script id="__NEXT_DATA__">` tag whose text parses as JSON, that JSON
value; `none` models a page without such a tag (where
`soup.find(...).text` raises `AttributeError`). -/
structure HtmlContent where
  nextData : Option Json

/-- `_content_to_json`: extract the embedded `__NEXT_DATA__` JSON from
the page.  `soup.find` returning `None` makes `.text` raise
`AttributeError`, which the script never catches. -/
def contentToJson (content : HtmlContent) : Except PyErr Json :=
  match content.nextData with
  | some j => Except.ok j
  | none => Except.error PyErr.attributeError

/-- The subscript chain of `_get_prerequisites`:
`course_data['props']['pageProps']['pageContent']['enrolment_rules'][0]['description']`. -/
def prereqChain (j : Json) : Except PyErr Json := do
  let props ← getItemStr j "props"
  let pageProps ← getItemStr props "pageProps"
  let pageContent ← getItemStr pageProps "pageContent"
  let rules ← getItemStr pageContent "enrolment_rules"
  let rule0 ← getItemNat rules 0
  getItemStr rule0 "description"

/-- The subscript chain of `_get_name_from_content`:
`course_data['props']['pageProps']['pageContent']['title']`. -/
def nameChain (j : Json) : Except PyErr Json := do
  let props ← getItemStr j "props"
  let pageProps ← getItemStr props "pageProps"
  let pageContent ← getItemStr pageProps "pageContent"
  getItemStr pageContent "title"

/-- The subscript chain of `_get_code_from_content`:
`course_data['props']['pageProps']['pageContent']['cl_code']`. -/
def codeChain (j : Json) : Except PyErr Json := do
  let props ← getItemStr j "props"
  let pageProps ← getItemStr props "pageProps"
  let pageContent ← getItemStr pageProps "pageContent"
  getItemStr pageContent "cl_code"

/-- The subscript chain of `_get_postgrad_from_content`:
`course_data['props']['pageProps']['pageContent']['study_level'][0]['label']`. -/
def postgradChain (j : Json) : Except PyErr Json := do
  let props ← getItemStr j "props"
  let pageProps ← getItemStr props "pageProps"
  let pageContent ← getItemStr pageProps "pageContent"
  let levels ← getItemStr pageContent "study_level"
  let level0 ← getItemNat levels 0
  getItemStr level0 "label"

/-- `c.upper()` agreement with `'C'` etc.: an ASCII-case-insensitive
match of one pattern letter, as `re.IGNORECASE` performs on the ASCII
letters of `"COMP"`. -/
def charIMatch (pat c : Char) : Bool :=
  c.toUpper == pat

/-- Whether eight characters match `COMP\d\d\d\d` case-insensitively:
the condition `re.IGNORECASE` evaluates at one candidate position. -/
def compMatch (c1 c2 c3 c4 d1 d2 d3 d4 : Char) : Bool :=
  charIMatch 'C' c1 && charIMatch 'O' c2 && charIMatch 'M' c3 &&
    charIMatch 'P' c4 && d1.isDigit && d2.isDigit && d3.isDigit &&
    d4.isDigit

/-- `re.findall(r"COMP\d\d\d\d", s, re.IGNORECASE)` on the character
list of `s`: scan left to right; at each position emit the eight-character
match and resume after it, or advance one character; with fewer than
eight characters left no match can start anywhere. -/
def findAllComp : List Char → List (List Char)
  | c1 :: c2 :: c3 :: c4 :: d1 :: d2 :: d3 :: d4 :: rest =>
    if compMatch c1 c2 c3 c4 d1 d2 d3 d4 then
      [c1, c2, c3, c4, d1, d2, d3, d4] :: findAllComp rest
    else
      findAllComp (c2 :: c3 :: c4 :: d1 :: d2 :: d3 :: d4 :: rest)
  | _ => []

/-- A character list of the exact shape `COMP\d\d\d\d`
(case-insensitive). -/
def isCompCodeChars : List Char → Bool
  | [c1, c2, c3, c4, d1, d2, d3, d4] => compMatch c1 c2 c3 c4 d1 d2 d3 d4
  | _ => false

/-- A string of the exact shape `COMP\d\d\d\d` (case-insensitive). -/
def isCompCode (s : String) : Bool :=
  isCompCodeChars s.toList

/-- String-level wrapper for `re.findall(r"COMP\d\d\d\d", s, re.IGNORECASE)`. -/
def findAllCompStr (s : String) : List String :=
  (findAllComp s.toList).map String.mk

/-- `_get_prerequisites`: run the subscript chain inside
`try ... except TypeError ... except IndexError`, both handlers
returning `[]`; then `re.findall` over the description (which raises
`TypeError`, outside the `try`, if the description is not a string). -/
def getPrerequisites (content : HtmlContent) : Except PyErr (List String) :=
  match contentToJson content with
  | Except.error e => Except.error e
  | Except.ok j =>
    match prereqChain j with
    | Except.ok (Json.str s) => Except.ok (findAllCompStr s)
    | Except.ok _ => Except.error PyErr.typeError
    | Except.error PyErr.typeError => Except.ok []
    | Except.error PyErr.indexError => Except.ok []
    | Except.error e => Except.error e

/-- `_get_name_from_content`: run the subscript chain inside
`try ... except TypeError`, the handler returning `""`.  The success
value is returned as-is (the script does not check it is a string). -/
def getNameFromContent (content : HtmlContent) : Except PyErr Json :=
  match contentToJson content with
  | Except.error e => Except.error e
  | Except.ok j =>
    match nameChain j with
    | Except.ok v => Except.ok v
    | Except.error PyErr.typeError => Except.ok (Json.str "")
    | Except.error e => Except.error e

/-- `_get_code_from_content`: same shape as `_get_name_from_content`
over the `cl_code` field. -/
def getCodeFromContent (content : HtmlContent) : Except PyErr Json :=
  match contentToJson content with
  | Except.error e => Except.error e
  | Except.ok j =>
    match codeChain j with
    | Except.ok v => Except.ok v
    | Except.error PyErr.typeError => Except.ok (Json.str "")
    | Except.error e => Except.error e

/-- Python `course_pgrd == "Postgraduate"`: true exactly for the string
`"Postgraduate"` (comparison with a non-string value is `False`, never
an exception). -/
def isPostgradLabel : Json → Bool
  | Json.str s => s == "Postgraduate"
  | _ => false

/-- `_get_postgrad_from_content`: run the subscript chain inside
`try ... except TypeError`, the handler returning `True`; on success
compare the label with `"Postgraduate"`. -/
def getPostgradFromContent (content : HtmlContent) : Except PyErr Bool :=
  match contentToJson content with
  | Except.error e => Except.error e
  | Except.ok j =>
    match postgradChain j with
    | Except.ok v => Except.ok (isPostgradLabel v)
    | Except.error PyErr.typeError => Except.ok true
    | Except.error e => Except.error e

/-- The `Course` class.  Python lists are heterogeneous, and `main`
actually passes raw course-code strings to `add_prereq`, so the element
type of the three membership lists is a parameter `α`; Python `in` is
list membership over it.  The field name `corequesites` keeps the
source's spelling. -/
structure Course (α : Type) where
  code : String
  name : String
  prerequisites : List α
  corequesites : List α
  exclusions : List α
  handbook_url : String

/-- `Course.__init__`: empty membership lists, and the handbook URL
built by string concatenation — note the undergraduate branch joins
`"https://www.handbook.unsw.edu.au"` and `"undergraduate/..."` with no
separating `/`, unlike the postgraduate branch. -/
def Course.init (α : Type) (name code : String) (postgrad : Bool) : Course α :=
  { code := code
    name := name
    prerequisites := []
    corequesites := []
    exclusions := []
    handbook_url :=
      if postgrad then
        "https://www.handbook.unsw.edu.au/" ++ "postgraduate/courses/2025/" ++ code
      else
        "https://www.handbook.unsw.edu.au" ++ "undergraduate/courses/2025/" ++ code }

/-- `Course.add_prereq`: if the course is already a prerequisite, only
log a warning (state unchanged); otherwise append it. -/
def Course.add_prereq {α : Type} [DecidableEq α] (c : Course α) (course : α) :
    Course α :=
  if course ∈ c.prerequisites then c
  else { c with prerequisites := c.prerequisites ++ [course] }

/-- `Course.add_coreq`: if the course is already a corequisite, only
log a warning (state unchanged); otherwise append it. -/
def Course.add_coreq {α : Type} [DecidableEq α] (c : Course α) (course : α) :
    Course α :=
  if course ∈ c.corequesites then c
  else { c with corequesites := c.corequesites ++ [course] }

/-- `Course.add_exclusion`: if the course is already an exclusion, only
log a warning (state unchanged); otherwise append it. -/
def Course.add_exclusion {α : Type} [DecidableEq α] (c : Course α) (course : α) :
    Course α :=
  if course ∈ c.exclusions then c
  else { c with exclusions := c.exclusions ++ [course] }

/-- The `GraphVisualisation` class: a list of vertex pairs, each stored
as the two-element Python list `temp = [a, b]`. -/
structure GraphVisualisation (α : Type) where
  prerequisites : List (List α)

/-- `GraphVisualisation.__init__`. -/
def GraphVisualisation.init (α : Type) : GraphVisualisation α :=
  { prerequisites := [] }

/-- `GraphVisualisation.add_edge_prerequisite`: append the pair
`[a, b]` to the edge list, unconditionally. -/
def GraphVisualisation.add_edge_prerequisite {α : Type}
    (g : GraphVisualisation α) (a b : α) : GraphVisualisation α :=
  { g with prerequisites := g.prerequisites ++ [[a, b]] }

/-! ## The on-disk cache and the network

The cache directory is modelled as an association list from file path
to file content; `lookup` finds the most recently written value.  The
network is a total function `net : String → Response` giving the
response `requests.get` produces for each URL (connection failures are
outside the claims' scope). -/

/-- The on-disk `sites/` tree: file path ↦ file content. -/
abbrev FileSystem := List (String × String)

/-- The `netloc` and `path` components of `urllib.parse.urlparse`. -/
structure ParsedUrl where
  netloc : String
  path : String

/-- Split a character list at the first `'/'`, keeping the slash with
the second part. -/
def splitAtSlash : List Char → List Char × List Char
  | [] => ([], [])
  | c :: rest =>
    if c = '/' then ([], c :: rest)
    else
      let (a, b) := splitAtSlash rest
      (c :: a, b)

/-- The characters following the first `"://"`, if any. -/
def afterScheme : List Char → Option (List Char)
  | ':' :: '/' :: '/' :: rest => some rest
  | _ :: rest => afterScheme rest
  | [] => none

/-- `urllib.parse.urlparse`, restricted to the `netloc` and `path`
fields the script reads, for the absolute URLs (no query, params or
fragment) the script builds: everything between `"://"` and the next
`/` is the netloc, the rest (leading `/` included) is the path; with no
`"://"` the whole string is the path. -/
def urlparse (url : String) : ParsedUrl :=
  match afterScheme url.toList with
  | some rest =>
    let (netl, p) := splitAtSlash rest
    { netloc := String.mk netl, path := String.mk p }
  | none => { netloc := "", path := url }

/-- The cache path `"sites/" + domain.netloc + "/" + domain.path + ".html"`,
computed by the same inline expression in both `open_contents` and
`save_contents`. -/
def file_location (url : String) : String :=
  "sites/" ++ (urlparse url).netloc ++ "/" ++ (urlparse url).path ++ ".html"

/-- `open_contents`: read the cached file for the URL; a missing file
raises `FileNotFoundError` (the `except` clause re-raises the same
exception type). -/
def open_contents (fs : FileSystem) (url : String) : Except PyErr String :=
  match fs.lookup (file_location url) with
  | some content => Except.ok content
  | none => Except.error PyErr.fileNotFoundError

/-- `save_contents`: write the prettified HTML to the cache path for
the URL (`os.makedirs` has no counterpart in the map model). -/
def save_contents (prettify : String → String) (fs : FileSystem)
    (url content : String) : FileSystem :=
  (file_location url, prettify content) :: fs

/-- A `requests` response: status code and body text. -/
structure Response where
  status_code : Nat
  text : String

/-- `Response.raise_for_status`: raise `requests.HTTPError` exactly for
4xx and 5xx status codes. -/
def raise_for_status (r : Response) : Except PyErr Unit :=
  if 400 ≤ r.status_code ∧ r.status_code < 600 then
    Except.error PyErr.httpError
  else
    Except.ok ()

/-- `make_request`: GET the URL; `raise_for_status` is wrapped in
`try ... except HTTPError` whose handler only logs, so both branches
fall through to the same save-and-return of `resp.text`. -/
def make_request (prettify : String → String) (net : String → Response)
    (fs : FileSystem) (url : String) (save_response : Bool) :
    String × FileSystem :=
  let resp := net url
  match raise_for_status resp with
  | Except.ok _ =>
    let fs' := if save_response then save_contents prettify fs url resp.text else fs
    (resp.text, fs')
  | Except.error _ =>
    let fs' := if save_response then save_contents prettify fs url resp.text else fs
    (resp.text, fs')

/-- `query_url`: with `use_cache` try the cache and fall back to
`make_request` on `FileNotFoundError`; without `use_cache` no branch
runs, and the Python function falls off the end returning `None`. -/
def query_url (prettify : String → String) (net : String → Response)
    (fs : FileSystem) (url : String) (use_cache : Bool) :
    Option String × FileSystem :=
  if use_cache then
    match open_contents fs url with
    | Except.ok content => (some content, fs)
    | Except.error _ =>
      let (text, fs') := make_request prettify net fs url true
      (some text, fs')
  else
    (none, fs)

/-! ## The timetable page

`get_courses_list_from_timetable` reads the timetable page through
BeautifulSoup as: one section per `classSearchSectionHeading` cell,
each with a flag for whether the preceding heading text contains
`"Undergraduate"` and the rows of the section's first table; of each
row it reads whether it contains a `td` of class `rowSpacer` and the
texts of its `td` cells. -/

/-- A `tr` of a timetable section table. -/
structure TimetableRow where
  hasRowSpacer : Bool
  tdTexts : List String

/-- A timetable section table with its heading context. -/
structure TimetableSection where
  undergradHeading : Bool
  rows : List TimetableRow

/-- The handbook URL built for a course code in
`get_courses_list_from_timetable`. -/
def course_handbook_url (courseString code : String) : String :=
  "https://www.handbook.unsw.edu.au/" ++ courseString ++ "/courses/2025/" ++ code

/-- The inner loop of `get_courses_list_from_timetable` over the rows
remaining after `pop(0)`: skip rowSpacer rows, read the first `td` cell
(`find_all("td")[0]` raises `IndexError` if there is none), and append
the handbook URL if it is not already identified. -/
def processRows (courseString : String) (acc : List String) :
    List TimetableRow → Except PyErr (List String)
  | [] => Except.ok acc
  | r :: rs =>
    if r.hasRowSpacer then processRows courseString acc rs
    else
      match r.tdTexts with
      | [] => Except.error PyErr.indexError
      | code :: _ =>
        let url := course_handbook_url courseString code
        if url ∈ acc then processRows courseString acc rs
        else processRows courseString (acc ++ [url]) rs

/-- The outer loop of `get_courses_list_from_timetable` over the
section headings: pick `"undergraduate"`/`"postgraduate"` from the
heading context, drop the header row (`pop(0)`, raising `IndexError`
on an empty table), and process the remaining rows, accumulating into
the shared `identified_courses` list. -/
def processSections (acc : List String) :
    List TimetableSection → Except PyErr (List String)
  | [] => Except.ok acc
  | sec :: secs =>
    let courseString := if sec.undergradHeading then "undergraduate" else "postgraduate"
    match sec.rows with
    | [] => Except.error PyErr.indexError
    | _headerRow :: entries =>
      match processRows courseString acc entries with
      | Except.error e => Except.error e
      | Except.ok identified => processSections identified secs

/-- `get_courses_list_from_timetable`. -/
def get_courses_list_from_timetable (sections : List TimetableSection) :
    Except PyErr (List String) :=
  processSections [] sections

/-- The URL-selection rule of claim C6, stated independently of the
accumulator loop: the handbook URLs of the non-spacer rows after the
header row of a section. -/
def rowUrls (courseString : String) (rows : List TimetableRow) : List String :=
  rows.filterMap fun r =>
    if r.hasRowSpacer then none
    else r.tdTexts.head?.map (course_handbook_url courseString)

/-- The heading-derived URL segment of a section. -/
def sectionString (sec : TimetableSection) : String :=
  if sec.undergradHeading then "undergraduate" else "postgraduate"

/-- All URLs contributed by the sections, spacer rows and header rows
excluded, duplicates not yet removed. -/
def timetableUrls (sections : List TimetableSection) : List String :=
  (sections.map fun sec => rowUrls (sectionString sec) (sec.rows.drop 1)).flatten

/-! ## Concrete sample data used to exercise the definitions -/

/-- A course page JSON whose `enrolment_rules` list is empty (the
handbook serves this for courses with no conditions of enrolment). -/
def demoRulesEmpty : Json :=
  Json.obj [("props", Json.obj [("pageProps", Json.obj [("pageContent",
    Json.obj [("enrolment_rules", Json.arr [])])])])]

/-- A course page JSON whose `study_level` list is empty. -/
def demoLevelsEmpty : Json :=
  Json.obj [("props", Json.obj [("pageProps", Json.obj [("pageContent",
    Json.obj [("study_level", Json.arr [])])])])]

/-- A course page JSON whose first enrolment rule has description `d`. -/
def demoRules (d : String) : Json :=
  Json.obj [("props", Json.obj [("pageProps", Json.obj [("pageContent",
    Json.obj [("enrolment_rules",
      Json.arr [Json.obj [("description", Json.str d)]])])])])]

/-- A concrete course with one prerequisite, one corequisite and one
exclusion, used to exercise the membership checks. -/
def exampleCourse : Course String :=
  { code := "COMP3821"
    name := "Extended Algorithms"
    prerequisites := ["COMP1511"]
    corequesites := ["COMP1521"]
    exclusions := ["COMP1531"]
    handbook_url := "" }

/-! ## Helper lemmas -/

/-- Every match `re.findall(r"COMP\d\d\d\d", ·, re.IGNORECASE)` emits
has the exact shape of the pattern. -/
theorem findAllComp_isCompCode (l : List Char) :
    ∀ m ∈ findAllComp l, isCompCodeChars m = true := by
  induction l using findAllComp.induct with
  | case1 c1 c2 c3 c4 d1 d2 d3 d4 rest hc ih =>
    intro m hm
    rw [findAllComp, if_pos hc] at hm
    rcases List.mem_cons.mp hm with rfl | hm'
    · simpa [isCompCodeChars] using hc
    · exact ih m hm'
  | case2 c1 c2 c3 c4 d1 d2 d3 d4 rest hc ih =>
    intro m hm
    rw [findAllComp, if_neg hc] at hm
    exact ih m hm
  | case3 l hshape =>
    intro m hm
    rw [findAllComp.eq_def] at hm
    split at hm
    · next c1 c2 c3 c4 d1 d2 d3 d4 rest =>
      exact absurd rfl (hshape c1 c2 c3 c4 d1 d2 d3 d4 rest)
    · cases hm

/-- Invariant of the inner row loop: a successful pass preserves
`Nodup` of the accumulated URL list, and the result holds exactly the
accumulated URLs plus those of the non-spacer rows. -/
theorem processRows_spec (courseString : String) (rows : List TimetableRow) :
    ∀ (acc res : List String),
      processRows courseString acc rows = Except.ok res →
      (acc.Nodup → res.Nodup) ∧
      (∀ u, u ∈ res ↔ u ∈ acc ∨ u ∈ rowUrls courseString rows) := by
  induction rows with
  | nil =>
    intro acc res h
    cases h
    exact ⟨fun hn => hn, by simp [rowUrls]⟩
  | cons r rs ih =>
    intro acc res h
    by_cases hs : r.hasRowSpacer
    · rw [processRows, if_pos hs] at h
      have hru : rowUrls courseString (r :: rs) = rowUrls courseString rs := by
        simp [rowUrls, List.filterMap_cons, hs]
      obtain ⟨h1, h2⟩ := ih acc res h
      refine ⟨h1, fun u => ?_⟩
      rw [h2 u, hru]
    · rw [processRows, if_neg hs] at h
      rcases htd : r.tdTexts with _ | ⟨code, restTd⟩
      · simp only [htd] at h
        exact Except.noConfusion h
      · simp only [htd] at h
        have hru : rowUrls courseString (r :: rs) =
            course_handbook_url courseString code :: rowUrls courseString rs := by
          simp [rowUrls, List.filterMap_cons, hs, htd]
        by_cases hmem : course_handbook_url courseString code ∈ acc
        · rw [if_pos hmem] at h
          obtain ⟨h1, h2⟩ := ih acc res h
          refine ⟨h1, fun u => ?_⟩
          rw [h2 u, hru]
          simp only [List.mem_cons]
          constructor
          · rintro (hu | hu)
            · exact Or.inl hu
            · exact Or.inr (Or.inr hu)
          · rintro (hu | rfl | hu)
            · exact Or.inl hu
            · exact Or.inl hmem
            · exact Or.inr hu
        · rw [if_neg hmem] at h
          obtain ⟨h1, h2⟩ :=
            ih (acc ++ [course_handbook_url courseString code]) res h
          constructor
          · intro hacc
            apply h1
            simp [List.nodup_append, hacc, hmem]
          · intro u
            rw [h2 u, hru]
            simp only [List.mem_append, List.mem_singleton, List.mem_cons]
            tauto

/-- Invariant of the outer section loop: a successful pass preserves
`Nodup` of the accumulated URL list, and the result holds exactly the
accumulated URLs plus those the sections contribute. -/
theorem processSections_spec (secs : List TimetableSection) :
    ∀ (acc res : List String),
      processSections acc secs = Except.ok res →
      (acc.Nodup → res.Nodup) ∧
      (∀ u, u ∈ res ↔ u ∈ acc ∨ u ∈ timetableUrls secs) := by
  induction secs with
  | nil =>
    intro acc res h
    cases h
    exact ⟨fun hn => hn, by simp [timetableUrls]⟩
  | cons sec secs ih =>
    intro acc res h
    rw [processSections] at h
    rcases hr : sec.rows with _ | ⟨headerRow, entries⟩
    · simp only [hr] at h
      exact Except.noConfusion h
    · simp only [hr] at h
      cases hpr : processRows
          (if sec.undergradHeading then "undergraduate" else "postgraduate")
          acc entries with
      | error e =>
        rw [hpr] at h
        exact Except.noConfusion h
      | ok identified =>
        rw [hpr] at h
        obtain ⟨ha1, ha2⟩ := processRows_spec _ entries acc identified hpr
        obtain ⟨hb1, hb2⟩ := ih identified res h
        refine ⟨fun hn => hb1 (ha1 hn), fun u => ?_⟩
        rw [hb2 u]
        have hdrop : sec.rows.drop 1 = entries := by simp [hr]
        simp only [timetableUrls, List.map_cons, List.flatten_cons,
          List.mem_append, sectionString, hdrop]
        rw [ha2 u]
        tauto

/-! ## The claims -/

/-- Claim C1, counterexample: on a page whose `__NEXT_DATA__` JSON is
the empty object (a shape mismatch: no `props` key), all three
extraction functions propagate `KeyError` to the caller instead of
returning their empty/default values. -/
theorem extraction_keyError_propagates :
    getPrerequisites ⟨some (Json.obj [])⟩ = Except.error PyErr.keyError ∧
    getNameFromContent ⟨some (Json.obj [])⟩ = Except.error PyErr.keyError ∧
    getPostgradFromContent ⟨some (Json.obj [])⟩ = Except.error PyErr.keyError ∧
    getPrerequisites ⟨some (Json.obj [])⟩ ≠ Except.ok [] :=
  ⟨rfl, rfl, rfl, fun hcon => Except.noConfusion hcon⟩

/-- Claim C1, amended: the extraction functions catch only `TypeError`
(plus `IndexError` in `_get_prerequisites`) and then return their
empty/default values; a missing key (`KeyError`) propagates from all
three, and an empty `study_level` list (`IndexError`) propagates from
`_get_postgrad_from_content`. -/
theorem extraction_catches_typeError_and_indexError (content : HtmlContent)
    (j : Json) (hj : content.nextData = some j) :
    ((prereqChain j = Except.error PyErr.typeError ∨
        prereqChain j = Except.error PyErr.indexError) →
      getPrerequisites content = Except.ok []) ∧
    (nameChain j = Except.error PyErr.typeError →
      getNameFromContent content = Except.ok (Json.str "")) ∧
    (postgradChain j = Except.error PyErr.typeError →
      getPostgradFromContent content = Except.ok true) ∧
    (prereqChain j = Except.error PyErr.keyError →
      getPrerequisites content = Except.error PyErr.keyError) ∧
    (postgradChain j = Except.error PyErr.indexError →
      getPostgradFromContent content = Except.error PyErr.indexError) := by
  refine ⟨?_, ?_, ?_, ?_, ?_⟩
  · rintro (h | h) <;> simp [getPrerequisites, contentToJson, hj, h]
  · intro h; simp [getNameFromContent, contentToJson, hj, h]
  · intro h; simp [getPostgradFromContent, contentToJson, hj, h]
  · intro h; simp [getPrerequisites, contentToJson, hj, h]
  · intro h; simp [getPostgradFromContent, contentToJson, hj, h]

/-- Claim C1, witness: concrete pages exercising every handler branch
of the amended claim. -/
theorem extraction_catches_typeError_and_indexError_witness :
    getPrerequisites ⟨some Json.null⟩ = Except.ok [] ∧
    getPrerequisites ⟨some demoRulesEmpty⟩ = Except.ok [] ∧
    getNameFromContent ⟨some Json.null⟩ = Except.ok (Json.str "") ∧
    getPostgradFromContent ⟨some Json.null⟩ = Except.ok true ∧
    getPrerequisites ⟨some (Json.obj [("x", Json.null)])⟩ =
      Except.error PyErr.keyError ∧
    getPostgradFromContent ⟨some demoLevelsEmpty⟩ =
      Except.error PyErr.indexError :=
  ⟨(extraction_catches_typeError_and_indexError ⟨some Json.null⟩
      Json.null rfl).1 (Or.inl rfl),
   (extraction_catches_typeError_and_indexError ⟨some demoRulesEmpty⟩
      demoRulesEmpty rfl).1 (Or.inr rfl),
   (extraction_catches_typeError_and_indexError ⟨some Json.null⟩
      Json.null rfl).2.1 rfl,
   (extraction_catches_typeError_and_indexError ⟨some Json.null⟩
      Json.null rfl).2.2.1 rfl,
   (extraction_catches_typeError_and_indexError ⟨some (Json.obj [("x", Json.null)])⟩
      (Json.obj [("x", Json.null)]) rfl).2.2.2.1 rfl,
   (extraction_catches_typeError_and_indexError ⟨some demoLevelsEmpty⟩
      demoLevelsEmpty rfl).2.2.2.2 rfl⟩

/-- Claim C2, counterexample: adding the same `(course, prerequisite)`
pair twice puts it in the edge list twice — `add_edge_prerequisite`
performs no duplicate check. -/
theorem add_edge_prerequisite_allows_duplicate :
    ¬ ((((GraphVisualisation.init String).add_edge_prerequisite
            "COMP2521" "COMP1511").add_edge_prerequisite
            "COMP2521" "COMP1511").prerequisites.count
          ["COMP2521", "COMP1511"] ≤ 1) := by
  decide

/-- Claim C2, amended: the graph-construction logic appends every
requested pair unconditionally, so after any sequence of
prerequisite-adding operations the edge list is exactly the sequence of
pairs added, in order — a pair added twice appears twice. -/
theorem add_edge_prerequisite_appends_every_pair (α : Type)
    (ps : List (α × α)) :
    (ps.foldl (fun g p => g.add_edge_prerequisite p.1 p.2)
        (GraphVisualisation.init α)).prerequisites =
      ps.map fun p => [p.1, p.2] := by
  suffices h : ∀ (g : GraphVisualisation α) (qs : List (α × α)),
      (qs.foldl (fun g p => g.add_edge_prerequisite p.1 p.2) g).prerequisites =
        g.prerequisites ++ qs.map fun p => [p.1, p.2] by
    simpa [GraphVisualisation.init] using h (GraphVisualisation.init α) ps
  intro g qs
  induction qs generalizing g with
  | nil => simp
  | cons p qs ih =>
    rw [List.foldl_cons, ih]
    simp [GraphVisualisation.add_edge_prerequisite]

/-- Claim C3: for a URL whose GET yields an HTTP error status (4xx or
5xx), `make_request` still saves and returns the body of that failed
response — the `HTTPError` is only logged. -/
theorem make_request_returns_body_on_http_error (prettify : String → String)
    (net : String → Response) (fs : FileSystem) (url : String)
    (save_response : Bool)
    (h400 : 400 ≤ (net url).status_code) (h600 : (net url).status_code < 600) :
    make_request prettify net fs url save_response =
      ((net url).text,
        if save_response then save_contents prettify fs url (net url).text
        else fs) := by
  have hrs : raise_for_status (net url) = Except.error PyErr.httpError := by
    simp [raise_for_status, h400, h600]
  simp [make_request, hrs]

/-- Claim C3, witness: a 404 response's body is returned and saved. -/
theorem make_request_returns_body_on_http_error_witness :
    make_request id (fun _ => ⟨404, "notfound"⟩) [] "https://x.y/z" true =
      ("notfound", save_contents id [] "https://x.y/z" "notfound") :=
  make_request_returns_body_on_http_error id (fun _ => ⟨404, "notfound"⟩)
    [] "https://x.y/z" true (by decide) (by decide)

/-- Claim C4: with `use_cache` and no cached file for the URL,
`query_url` catches the `FileNotFoundError` of `open_contents` and
returns the result of `make_request` for that URL. -/
theorem query_url_cache_miss_falls_back_to_request (prettify : String → String)
    (net : String → Response) (fs : FileSystem) (url : String)
    (h : fs.lookup (file_location url) = none) :
    query_url prettify net fs url true =
      (some (make_request prettify net fs url true).1,
        (make_request prettify net fs url true).2) := by
  have ho : open_contents fs url = Except.error PyErr.fileNotFoundError := by
    simp [open_contents, h]
  rcases hmr : make_request prettify net fs url true with ⟨t, fs2⟩
  simp [query_url, ho, hmr]

/-- Claim C4, witness: an empty cache falls back to the network
response. -/
theorem query_url_cache_miss_falls_back_to_request_witness :
    query_url id (fun _ => ⟨200, "page"⟩) [] "https://x.y/z" true =
      (some (make_request id (fun _ => ⟨200, "page"⟩) [] "https://x.y/z" true).1,
        (make_request id (fun _ => ⟨200, "page"⟩) [] "https://x.y/z" true).2) :=
  query_url_cache_miss_falls_back_to_request id (fun _ => ⟨200, "page"⟩)
    [] "https://x.y/z" rfl

/-- Claim C5: each `Course` membership operation leaves the course
unchanged when the argument is already in the corresponding list, and
otherwise appends it at the end of that list, changing no other
attribute. -/
theorem course_add_methods_duplicate_check (α : Type) [DecidableEq α]
    (c : Course α) (x : α) :
    (x ∈ c.prerequisites → c.add_prereq x = c) ∧
    (x ∉ c.prerequisites → c.add_prereq x =
      { c with prerequisites := c.prerequisites ++ [x] }) ∧
    (x ∈ c.corequesites → c.add_coreq x = c) ∧
    (x ∉ c.corequesites → c.add_coreq x =
      { c with corequesites := c.corequesites ++ [x] }) ∧
    (x ∈ c.exclusions → c.add_exclusion x = c) ∧
    (x ∉ c.exclusions → c.add_exclusion x =
      { c with exclusions := c.exclusions ++ [x] }) := by
  refine ⟨?_, ?_, ?_, ?_, ?_, ?_⟩ <;> intro h <;>
    simp [Course.add_prereq, Course.add_coreq, Course.add_exclusion, h]

/-- Claim C5, witness: both branches of all three operations on a
concrete course. -/
theorem course_add_methods_duplicate_check_witness :
    exampleCourse.add_prereq "COMP1511" = exampleCourse ∧
    exampleCourse.add_prereq "COMP6080" =
      { exampleCourse with
          prerequisites := exampleCourse.prerequisites ++ ["COMP6080"] } ∧
    exampleCourse.add_coreq "COMP1521" = exampleCourse ∧
    exampleCourse.add_coreq "COMP6080" =
      { exampleCourse with
          corequesites := exampleCourse.corequesites ++ ["COMP6080"] } ∧
    exampleCourse.add_exclusion "COMP1531" = exampleCourse ∧
    exampleCourse.add_exclusion "COMP6080" =
      { exampleCourse with
          exclusions := exampleCourse.exclusions ++ ["COMP6080"] } :=
  ⟨(course_add_methods_duplicate_check String exampleCourse "COMP1511").1
      (by decide),
   (course_add_methods_duplicate_check String exampleCourse "COMP6080").2.1
      (by decide),
   (course_add_methods_duplicate_check String exampleCourse "COMP1521").2.2.1
      (by decide),
   (course_add_methods_duplicate_check String exampleCourse "COMP6080").2.2.2.1
      (by decide),
   (course_add_methods_duplicate_check String exampleCourse "COMP1531").2.2.2.2.1
      (by decide),
   (course_add_methods_duplicate_check String exampleCourse "COMP6080").2.2.2.2.2
      (by decide)⟩

/-- Claim C6: whenever `get_courses_list_from_timetable` returns, the
returned list has no duplicates and holds exactly the handbook URLs of
the rows after each table's header row that contain no rowSpacer
cell. -/
theorem get_courses_list_from_timetable_nodup_skips
    (sections : List TimetableSection) (res : List String)
    (h : get_courses_list_from_timetable sections = Except.ok res) :
    res.Nodup ∧ ∀ u, u ∈ res ↔ u ∈ timetableUrls sections := by
  obtain ⟨h1, h2⟩ := processSections_spec sections [] res h
  exact ⟨h1 List.nodup_nil, fun u => by simpa using h2 u⟩

/-- Claim C6, witness: a section with a header row, a spacer row and a
duplicated course code produces a duplicate-free URL list. -/
theorem get_courses_list_from_timetable_nodup_skips_witness :
    List.Nodup
      ["https://www.handbook.unsw.edu.au/undergraduate/courses/2025/COMP1511",
       "https://www.handbook.unsw.edu.au/undergraduate/courses/2025/COMP2521"] :=
  (get_courses_list_from_timetable_nodup_skips
    [⟨true, [⟨false, ["Course", "hdr"]⟩, ⟨true, []⟩,
      ⟨false, ["COMP1511", "x"]⟩, ⟨false, ["COMP2521"]⟩,
      ⟨false, ["COMP1511"]⟩]⟩]
    ["https://www.handbook.unsw.edu.au/undergraduate/courses/2025/COMP1511",
     "https://www.handbook.unsw.edu.au/undergraduate/courses/2025/COMP2521"]
    rfl).1

/-- Claim C7: `save_contents` and `open_contents` use the same
URL-derived cache path, so a read after a write for the same URL
returns the stored prettified HTML. -/
theorem save_contents_open_contents_roundtrip (prettify : String → String)
    (fs : FileSystem) (url content : String) :
    open_contents (save_contents prettify fs url content) url =
      Except.ok (prettify content) := by
  simp [open_contents, save_contents, List.lookup]

/-- Claim C8: when the page's JSON yields a description string for the
first enrolment rule, `_get_prerequisites` returns exactly the
case-insensitive `COMP\d\d\d\d` matches of that description, and every
returned string has that shape. -/
theorem getPrerequisites_comp_codes_from_description (content : HtmlContent)
    (j : Json) (d : String) (hj : content.nextData = some j)
    (hd : prereqChain j = Except.ok (Json.str d)) :
    getPrerequisites content = Except.ok (findAllCompStr d) ∧
    ∀ m ∈ findAllCompStr d, isCompCode m = true := by
  refine ⟨by simp [getPrerequisites, contentToJson, hj, hd], fun m hm => ?_⟩
  obtain ⟨mc, hmc, rfl⟩ := List.mem_map.mp hm
  simpa [isCompCode] using findAllComp_isCompCode _ mc hmc

/-- Claim C8, witness: a concrete rule description and one of its
matches. -/
theorem getPrerequisites_comp_codes_from_description_witness :
    getPrerequisites ⟨some (demoRules "Prerequisite: COMP1511 or comp1911")⟩ =
      Except.ok (findAllCompStr "Prerequisite: COMP1511 or comp1911") ∧
    isCompCode "COMP1511" = true :=
  ⟨(getPrerequisites_comp_codes_from_description
      ⟨some (demoRules "Prerequisite: COMP1511 or comp1911")⟩
      (demoRules "Prerequisite: COMP1511 or comp1911")
      "Prerequisite: COMP1511 or comp1911" rfl rfl).1,
   (getPrerequisites_comp_codes_from_description
      ⟨some (demoRules "Prerequisite: COMP1511 or comp1911")⟩
      (demoRules "Prerequisite: COMP1511 or comp1911")
      "Prerequisite: COMP1511 or comp1911" rfl rfl).2
      "COMP1511" (by decide)⟩

/-- Claim C9: `query_url` with `use_cache = False` returns `None` and
touches neither the cache nor the network — no branch of the function
handles that case. -/
theorem query_url_no_cache_returns_none (prettify : String → String)
    (net : String → Response) (fs : FileSystem) (url : String) :
    query_url prettify net fs url false = (none, fs) :=
  rfl

/-- Claim C10: the undergraduate handbook URL is built with no `/`
between host and path, while the postgraduate one is well-formed. -/
theorem course_init_handbook_url (α : Type) (name code : String) :
    (Course.init α name code false).handbook_url =
      "https://www.handbook.unsw.edu.auundergraduate/courses/2025/" ++ code ∧
    (Course.init α name code true).handbook_url =
      "https://www.handbook.unsw.edu.au/postgraduate/courses/2025/" ++ code :=
  ⟨rfl, rfl⟩

end MapPrereqs
